import Mathlib

/-!
# Verification of the BPM-calculator estimator (`dataprocessor/bpmcalc.py`)

Shallow embedding of the `BPMCalc` class.  Python floats are modelled as
rationals (`ℚ`); the transcendental constant `np.pi` and the external
collaborators declared out of scope by the design document (the smoother,
`derivative`, `clean_data`, the nonlinear optimizer `scipy.optimize.curve_fit`
and the linear solver `np.linalg.lstsq`, float `np.sqrt`) are abstracted as
parameters, collected in an environment record `Env` and a `Smoother` record.
`curve_fit` returning `none` models scipy raising `RuntimeError`
(non-convergence); Python exceptions escaping a method are modelled with
`Except`, paired with the mutated state at the moment of raising.
The source of randomness (`random.randint` draws) is passed in explicitly as a
list of naturals, clamped to the interval `[0, len - chunk_length]` that
`randint` guarantees.
-/

/-- A 2D position sample (one row of the `data` buffer). -/
abbrev Point : Type := ℚ × ℚ

/-- The pluggable smoothing strategy (`BaseSmoother.smooth`).  The Python code
applies `smooth` both to sequences of 2D points (line 69) and to scalar
sequences (line 83), so the abstract collaborator gets one view of each type. -/
structure Smoother where
  smooth1 : List ℚ → List ℚ
  smooth2 : List Point → List Point

/-- `Fit = namedtuple('Fit', ['params', 'error', 'time', 'data'])` (line 11).
`params` keeps the positional tuple convention of the source
(`[amplitude, angular_frequency, phase, offset]`, with `params[1]` the
angular frequency). -/
structure Fit where
  params : List ℚ
  error : ℚ
  time : List ℚ
  data : List ℚ
deriving DecidableEq, Repr

/-- The estimator state: the instance attributes set by `BPMCalc.__init__`
(lines 16-24). -/
structure BPMCalc where
  smoother : Smoother
  time : List ℚ
  data : List Point
  minimum_points : ℕ
  maximum_points : ℕ
  fit : Option Fit

/-- The external collaborators of the estimator, out of scope per the design
document: `np.pi` (a float constant, abstracted since the embedding is over
`ℚ`), the math utilities `derivative` / `clean_data`, the nonlinear optimizer
`curve_fit` (input: xdata, ydata, initial guess; output: `some (popt, pcov)`
on convergence, `none` for a `RuntimeError`), the slope returned by the linear
least-squares solve of `lsrl_vector`, and float `np.sqrt`. -/
structure Env where
  pi : ℚ
  derivative : List ℚ → List Point → List Point
  clean_data : List ℚ → List ℚ
  curve_fit : List ℚ → List ℚ → List ℚ → Option (List ℚ × List (List ℚ))
  lstsq_slope : List Point → ℚ
  sqrt : ℚ → ℚ

/-- Python exceptions that `calculate_bpm` / `set_frequency` can raise. -/
inductive PyErr where
  | typeError
  | attributeError
  | indexError
deriving DecidableEq, Repr

/-- `np.sign` on a rational: `-1`, `0` or `1`. -/
def qsign (x : ℚ) : ℚ :=
  if x < 0 then -1 else if x = 0 then 0 else 1

/-- Python negative-index slice `l[-k:]`: the last `k` elements, except that
`l[-0:]` is the whole list. -/
def pySliceLast (k : ℕ) (l : List α) : List α :=
  if k = 0 then l else l.drop (l.length - k)

/-- Python slice `l[1:-1]`: drop the first and last element. -/
def pyTrim (l : List α) : List α :=
  (l.drop 1).dropLast

/-- Diagonal of a matrix starting from column `i`: `diagFrom i m` reads
entry `i + j` of row `j`. -/
def diagFrom (i : ℕ) : List (List ℚ) → List ℚ
  | [] => []
  | row :: rest => row.getD i 0 :: diagFrom (i + 1) rest

/-- `np.diag`: the main diagonal of a matrix. -/
def diag (m : List (List ℚ)) : List ℚ :=
  diagFrom 0 m

/-- Elementwise matrix subtraction (`pcov[1] - pcov[0]` on ndarrays). -/
def matSub (a b : List (List ℚ)) : List (List ℚ) :=
  List.zipWith (List.zipWith (fun x y => x - y)) a b

/-- `BPMCalc.__init__` (lines 16-24), with the already-resolved smoother
(the `DoubleExponential` default is an external collaborator). -/
def BPMCalc.init (smoother : Smoother) : BPMCalc :=
  { smoother := smoother
    time := []
    data := []
    minimum_points := 10
    maximum_points := 5000
    fit := none }

/-- `BPMCalc.reset` (lines 26-29). -/
def BPMCalc.reset (st : BPMCalc) : BPMCalc :=
  { st with data := [], time := [], fit := none }

/-- `BPMCalc.send_data` (lines 31-34): append the sample unless its timestamp
equals the most recently stored one. -/
def BPMCalc.send_data (t : ℚ) (coord : Point) (st : BPMCalc) : BPMCalc :=
  if st.time.length = 0 ∨ st.time.getLast? ≠ some t then
    { st with data := st.data ++ [coord], time := st.time ++ [t] }
  else st

/-- `BPMCalc.bpm_from_ang_freq` (lines 119-122). -/
def BPMCalc.bpm_from_ang_freq (env : Env) (angular_frequency : ℚ) : ℚ :=
  let freq := |angular_frequency| / (2 * env.pi)
  freq * 60

/-- `BPMCalc.lsrl_vector` (lines 112-117): the unit "bop axis" direction from
the least-squares slope `m`, `(sign m / sqrt (1 + m^2), |m| / sqrt (1 + m^2))`.
The solve itself (`np.linalg.lstsq`) is the abstract collaborator
`env.lstsq_slope`, as is float `np.sqrt`. -/
def BPMCalc.lsrl_vector (env : Env) (data : List Point) : Point :=
  let m := env.lstsq_slope data
  let mag := env.sqrt (1 + m ^ 2)
  (qsign m / mag, |m| / mag)

/-- `BPMCalc.project_velocities` (lines 99-104): dot each velocity sample with
the direction, then divide by `np.linalg.norm direction`. -/
def BPMCalc.project_velocities (env : Env) (data : List Point) (direction : Point) :
    List ℚ :=
  let dots := data.map fun p => p.1 * direction.1 + p.2 * direction.2
  dots.map fun d => d / env.sqrt (direction.1 ^ 2 + direction.2 ^ 2)

/-- `BPMCalc.bop_vector_velocity` (lines 93-97). -/
def BPMCalc.bop_vector_velocity (env : Env) (time : List ℚ) (data : List Point) :
    List ℚ :=
  let head_velocity := env.derivative time data
  let bop_vector := BPMCalc.lsrl_vector env data
  env.clean_data (BPMCalc.project_velocities env head_velocity bop_vector)

/-- The pair of candidate velocity series of `find_fit` line 79: bop-axis
velocity and cleaned raw vertical velocity (`derivative(*sample)[:, 1]`). -/
def velocity_data (env : Env) (sample : List ℚ × List Point) : List ℚ × List ℚ :=
  (BPMCalc.bop_vector_velocity env sample.1 sample.2,
   env.clean_data ((env.derivative sample.1 sample.2).map Prod.snd))

/-- `BPMCalc.find_fit` (lines 76-88): fit both candidate series (smoothed,
endpoints trimmed by `[1:-1]`) with the shared initial guess `p0`; on success
of both, pick index `0` (bop) exactly when `np.diag(pcov[1] - pcov[0])[1] > 0`,
else index `1` (raw vertical); `none` models the `RuntimeError` of a
non-converging `curve_fit` being caught. -/
def BPMCalc.find_fit (env : Env) (sm : Smoother) (sample : List ℚ × List Point)
    (p0 : List ℚ) : Option Fit :=
  let vd := velocity_data env sample
  let xs := pyTrim sample.1
  match env.curve_fit xs (pyTrim (sm.smooth1 vd.1)) p0,
        env.curve_fit xs (pyTrim (sm.smooth1 vd.2)) p0 with
  | some (popt0, pcov0), some (popt1, pcov1) =>
    let min_index : ℕ := if 0 < (diag (matSub pcov1 pcov0)).getD 1 0 then 0 else 1
    some { params := if min_index = 0 then popt0 else popt1
           error := (diag (if min_index = 0 then pcov0 else pcov1)).getD 1 0
           time := sample.1
           data := if min_index = 0 then vd.1 else vd.2 }
  | _, _ => none

/-- `BPMCalc.generate_samples` (lines 106-110): `num_chunks` chunks
`[time[i : i+chunk_length], data[i : i+chunk_length]]`, where the `k`-th random
draw `i = randint(0, len(data) - chunk_length)` is taken from the explicit
`rand` list, clamped to the interval `randint` guarantees. -/
def BPMCalc.generate_samples (time : List ℚ) (data : List Point)
    (num_chunks : ℕ) (chunk_length : ℕ) (rand : List ℕ) :
    List (List ℚ × List Point) :=
  (List.range num_chunks).map fun k =>
    let i := min (rand.getD k 0) (data.length - chunk_length)
    ((time.drop i).take chunk_length, (data.drop i).take chunk_length)

/-- The initial parameter guess of `optimum_fit` line 66:
`[50, 2*pi*116/60, 1, 0]` when no best fit exists, else the stored best fit's
parameter vector `self.fit[0]`. -/
def BPMCalc.initial_guess (env : Env) (st : BPMCalc) : List ℚ :=
  match st.fit with
  | none => [50, 2 * env.pi * 116 / 60, 1, 0]
  | some f => f.params

/-- `BPMCalc.optimum_fit` (lines 51-74): sample chunks (one whole-buffer chunk
below 50 points, else ten 50-point chunks), smooth each chunk's positions,
fit it, and keep the successful fit of least `error`; `none` when every
chunk's fit attempt failed. -/
def BPMCalc.optimum_fit (env : Env) (rand : List ℕ) (st : BPMCalc)
    (time : List ℚ) (data : List Point) : Option Fit :=
  let samples :=
    if data.length < 50 then BPMCalc.generate_samples time data 1 data.length rand
    else BPMCalc.generate_samples time data 10 50 rand
  let p0 := BPMCalc.initial_guess env st
  samples.foldl
    (fun optimum_sample sample =>
      let sample := (sample.1, st.smoother.smooth2 sample.2)
      let sample_fit := BPMCalc.find_fit env st.smoother sample p0
      match optimum_sample, sample_fit with
      | none, sf => sf
      | some os, some sf => if sf.error < os.error then some sf else some os
      | some os, none => some os)
    none

/-- The tail of `calculate_bpm` line 49,
`return self.bpm_from_ang_freq(self.fit[0][1])`, for a present fit `f`:
an out-of-range `params[1]` would raise `IndexError`. -/
def bpm_return (env : Env) (f : Fit) (st : BPMCalc) :
    Except PyErr (Option ℚ) × BPMCalc :=
  match f.params.get? 1 with
  | some w => (Except.ok (some (BPMCalc.bpm_from_ang_freq env w)), st)
  | none => (Except.error PyErr.indexError, st)

/-- The buffer-capping step of `calculate_bpm` (lines 40-42): when the stream
exceeds `maximum_points`, keep only the most recent `maximum_points` entries
of both sequences (Python slice `[-maximum_points:]`). -/
def BPMCalc.capped (st : BPMCalc) : BPMCalc :=
  if st.time.length > st.maximum_points then
    { st with time := pySliceLast st.maximum_points st.time
              data := pySliceLast st.maximum_points st.data }
  else st

/-- `BPMCalc.calculate_bpm` (lines 36-49).  Returns the Python result
(`Except.ok none` = the `None` early return, `Except.ok (some bpm)` = a BPM
value, `Except.error` = an escaping exception) together with the state as
mutated up to the point of return or raise.  The state after the capping
step (lines 40-42) is `BPMCalc.capped st`; `new_fit` is the `optimum_fit`
result on the capped buffer.  When `optimum_fit` yields no fit
(`new_fit = None`), line 46 either evaluates `new_fit.error` on `None`
(`AttributeError`, prior fit present) or assigns `self.fit = None` and
line 49 subscripts `None` (`TypeError`, no prior fit). -/
def BPMCalc.calculate_bpm (env : Env) (rand : List ℕ) (st : BPMCalc) :
    Except PyErr (Option ℚ) × BPMCalc :=
  if st.time.length < st.minimum_points then (Except.ok none, st)
  else
    match (BPMCalc.capped st).fit,
          BPMCalc.optimum_fit env rand (BPMCalc.capped st)
            (BPMCalc.capped st).time (BPMCalc.capped st).data with
    | none, none => (Except.error PyErr.typeError, { BPMCalc.capped st with fit := none })
    | none, some nf => bpm_return env nf { BPMCalc.capped st with fit := some nf }
    | some _, none => (Except.error PyErr.attributeError, BPMCalc.capped st)
    | some f, some nf =>
      if nf.error < f.error then
        bpm_return env nf { BPMCalc.capped st with fit := some nf }
      else bpm_return env f (BPMCalc.capped st)

/-- `BPMCalc.set_frequency` (lines 90-91): `self.fit[0][1] = 2*np.pi*frequency`
as an in-place update of the stored parameter vector.  `none` models the
`TypeError` of subscripting `self.fit = None` or the `IndexError` of a
parameter vector shorter than 2. -/
def BPMCalc.set_frequency (env : Env) (frequency : ℚ) (st : BPMCalc) :
    Option BPMCalc :=
  match st.fit with
  | none => none
  | some f =>
    if 1 < f.params.length then
      some { st with
              fit := some { f with params := f.params.set 1 (2 * env.pi * frequency) } }
    else none

/-! ## Concrete instances used by witnesses and counterexamples -/

/-- A smoother that returns its input unchanged (a valid instance of the
`smooth` contract: same length as input). -/
def idSmoother : Smoother :=
  { smooth1 := id, smooth2 := id }

/-- An environment whose optimizer never converges (`curve_fit` always raises
`RuntimeError`). -/
def envFail : Env :=
  { pi := 3
    derivative := fun _ d => d
    clean_data := id
    curve_fit := fun _ _ _ => none
    lstsq_slope := fun _ => 0
    sqrt := fun _ => 1 }

/-- An environment whose optimizer always converges, returning the initial
guess as parameters and a fixed covariance with frequency variance 1. -/
def envOk : Env :=
  { pi := 3
    derivative := fun _ d => d
    clean_data := id
    curve_fit := fun _ _ p0 => some (p0, [[0, 0], [0, 1]])
    lstsq_slope := fun _ => 0
    sqrt := fun _ => 1 }

/-- An environment whose optimizer always converges, returning the initial
guess and a 2x2 covariance whose frequency-parameter variance is 7 for both
candidate series (so the model selection sees a tie). -/
def envSel : Env :=
  { pi := 3
    derivative := fun _ d => d
    clean_data := id
    curve_fit := fun _ _ p0 => some (p0, [[5, 5], [5, 7]])
    lstsq_slope := fun _ => 0
    sqrt := fun _ => 1 }

/-- An environment whose least-squares solver reports slope `3/4`, a slope at
which `sqrt (1 + m^2) = sqrt (25/16)` is exactly representable: the `sqrt`
collaborator returns the exact root `5/4` there. -/
def env34 : Env :=
  { pi := 3
    derivative := fun _ d => d
    clean_data := id
    curve_fit := fun _ _ _ => none
    lstsq_slope := fun _ => 3 / 4
    sqrt := fun x => if x = 25 / 16 then 5 / 4 else 0 }

/-- Ten strictly increasing timestamps. -/
def times10 : List ℚ :=
  [0, 1, 2, 3, 4, 5, 6, 7, 8, 9]

/-- Ten sample points on the diagonal. -/
def points10 : List Point :=
  times10.map fun t => (t, t)

/-- A state holding exactly `minimum_points` samples and no best fit. -/
def stNoFit : BPMCalc :=
  { smoother := idSmoother
    time := times10
    data := points10
    minimum_points := 10
    maximum_points := 5000
    fit := none }

/-- A stored best fit with frequency-parameter error 100. -/
def fitA : Fit :=
  { params := [50, 12, 1, 0], error := 100, time := [], data := [] }

/-- `stNoFit` with `fitA` as the current best fit. -/
def stWithFit : BPMCalc :=
  { stNoFit with fit := some fitA }

/-- A state with six samples over a small configuration
(`minimum_points = 2`, `maximum_points = 5`), exercising the buffer cap. -/
def stSmallCap : BPMCalc :=
  { smoother := idSmoother
    time := [0, 1, 2, 3, 4, 5]
    data := [(0, 0), (1, 1), (2, 2), (3, 3), (4, 4), (5, 5)]
    minimum_points := 2
    maximum_points := 5
    fit := none }

/-! ## Claim theorems -/

/-- Claim C2: on a buffer shorter than `minimum_points`, `calculate_bpm`
returns the `None` "no estimate available" signal and leaves the whole state
unchanged, whatever the buffer holds. -/
theorem calculate_bpm_insufficient_data (env : Env) (rand : List ℕ)
    (st : BPMCalc) (h : st.time.length < st.minimum_points) :
    BPMCalc.calculate_bpm env rand st = (Except.ok none, st) := by
  simp [BPMCalc.calculate_bpm, h]

/-- Witness for C2: a freshly constructed estimator has 0 < 10 samples and the
call returns `(ok none, unchanged state)`. -/
theorem calculate_bpm_insufficient_data_witness :
    (BPMCalc.init idSmoother).time.length < (BPMCalc.init idSmoother).minimum_points ∧
    BPMCalc.calculate_bpm envFail [] (BPMCalc.init idSmoother) =
      (Except.ok none, BPMCalc.init idSmoother) :=
  ⟨by decide,
   calculate_bpm_insufficient_data envFail [] (BPMCalc.init idSmoother) (by decide)⟩

/-- Claim C5: `send_data t coord` drops the sample exactly when the buffer is
non-empty and `t` equals the last stored timestamp, appends `(t, coord)` to
both sequences otherwise, keeps the two sequences the same length, and always
succeeds (it is a total function). -/
theorem send_data_spec (t : ℚ) (coord : Point) (st : BPMCalc)
    (hlen : st.time.length = st.data.length) :
    ((st.time ≠ [] ∧ st.time.getLast? = some t) →
      BPMCalc.send_data t coord st = st) ∧
    ((st.time = [] ∨ st.time.getLast? ≠ some t) →
      (BPMCalc.send_data t coord st).time = st.time ++ [t] ∧
      (BPMCalc.send_data t coord st).data = st.data ++ [coord]) ∧
    (BPMCalc.send_data t coord st).time.length =
      (BPMCalc.send_data t coord st).data.length := by
  unfold BPMCalc.send_data
  by_cases hc : st.time.length = 0 ∨ st.time.getLast? ≠ some t
  · rw [if_pos hc]
    refine ⟨?_, fun _ => ⟨rfl, rfl⟩, ?_⟩
    · rintro ⟨hne, hlast⟩
      rcases hc with hc | hc
      · exact absurd (List.length_eq_zero.mp hc) hne
      · exact absurd hlast hc
    · simp [hlen]
  · rw [if_neg hc]
    push_neg at hc
    refine ⟨fun _ => rfl, ?_, hlen⟩
    rintro (h | h)
    · exact absurd (by simp [h]) hc.1
    · exact absurd hc.2 h

/-- Witness for C5: appending `(1, (2, 3))` to a fresh estimator. -/
theorem send_data_spec_witness :
    (((BPMCalc.init idSmoother).time ≠ [] ∧
        (BPMCalc.init idSmoother).time.getLast? = some 1) →
      BPMCalc.send_data 1 (2, 3) (BPMCalc.init idSmoother) = BPMCalc.init idSmoother) ∧
    (((BPMCalc.init idSmoother).time = [] ∨
        (BPMCalc.init idSmoother).time.getLast? ≠ some 1) →
      (BPMCalc.send_data 1 (2, 3) (BPMCalc.init idSmoother)).time =
        (BPMCalc.init idSmoother).time ++ [1] ∧
      (BPMCalc.send_data 1 (2, 3) (BPMCalc.init idSmoother)).data =
        (BPMCalc.init idSmoother).data ++ [(2, 3)]) ∧
    (BPMCalc.send_data 1 (2, 3) (BPMCalc.init idSmoother)).time.length =
      (BPMCalc.send_data 1 (2, 3) (BPMCalc.init idSmoother)).data.length :=
  send_data_spec 1 (2, 3) (BPMCalc.init idSmoother) (by decide)

/-- Claim C10: `reset` clears the time sequence, the position sequence and the
current best fit, and leaves `minimum_points`, `maximum_points` and the
smoother instance exactly as they were. -/
theorem reset_spec (st : BPMCalc) :
    st.reset.time = [] ∧ st.reset.data = [] ∧ st.reset.fit = none ∧
    st.reset.minimum_points = st.minimum_points ∧
    st.reset.maximum_points = st.maximum_points ∧
    st.reset.smoother = st.smoother :=
  ⟨rfl, rfl, rfl, rfl, rfl, rfl⟩

/-- Claim C7: with a best fit present (and its parameter vector long enough to
index, as every fit produced by the optimizer is), `set_frequency f` succeeds,
stores `2*pi*f` in the angular-frequency slot (index 1) of the best fit's
parameter vector, and changes nothing else: the other parameter slots, the
stored error, the fit's recorded time/data, both buffers, and the
configuration fields. -/
theorem set_frequency_spec (env : Env) (freq : ℚ) (st : BPMCalc) (f : Fit)
    (hfit : st.fit = some f) (hlen : 1 < f.params.length) :
    ∃ st' f', BPMCalc.set_frequency env freq st = some st' ∧
      st'.fit = some f' ∧
      f'.params.get? 1 = some (2 * env.pi * freq) ∧
      (∀ i, i ≠ 1 → f'.params.get? i = f.params.get? i) ∧
      f'.error = f.error ∧ f'.time = f.time ∧ f'.data = f.data ∧
      st'.time = st.time ∧ st'.data = st.data ∧
      st'.minimum_points = st.minimum_points ∧
      st'.maximum_points = st.maximum_points ∧
      st'.smoother = st.smoother := by
  refine ⟨{ st with
              fit := some { f with params := f.params.set 1 (2 * env.pi * freq) } },
          { f with params := f.params.set 1 (2 * env.pi * freq) }, ?_, rfl,
          ?_, ?_, rfl, rfl, rfl, rfl, rfl, rfl, rfl, rfl⟩
  · simp [BPMCalc.set_frequency, hfit, hlen]
  · exact List.get?_set_eq_of_lt _ hlen
  · intro i hi
    exact List.get?_set_ne _ _ (fun h => hi h.symm)

/-- Witness for C7: overriding the frequency of `stWithFit` to 2 Hz (with the
environment's `pi` standing for `np.pi`). -/
theorem set_frequency_spec_witness :
    ∃ st' f', BPMCalc.set_frequency envOk 2 stWithFit = some st' ∧
      st'.fit = some f' ∧
      f'.params.get? 1 = some (2 * envOk.pi * 2) ∧
      (∀ i, i ≠ 1 → f'.params.get? i = fitA.params.get? i) ∧
      f'.error = fitA.error ∧ f'.time = fitA.time ∧ f'.data = fitA.data ∧
      st'.time = stWithFit.time ∧ st'.data = stWithFit.data ∧
      st'.minimum_points = stWithFit.minimum_points ∧
      st'.maximum_points = stWithFit.maximum_points ∧
      st'.smoother = stWithFit.smoother :=
  set_frequency_spec envOk 2 stWithFit fitA rfl (by decide)

/-- Claim C9: the frequency override feeds the next estimation call.
`optimum_fit` (called by `calculate_bpm` on the possibly-capped buffer) uses
`initial_guess` as the optimizer's starting point `p0` (line 66); after a
successful `set_frequency f`, as long as the best fit has not been replaced,
that initial guess is exactly the stored parameter vector with `2*pi*f` in the
angular-frequency slot. -/
theorem set_frequency_initial_guess (env : Env) (freq : ℚ) (st : BPMCalc)
    (f : Fit) (st' : BPMCalc) (hfit : st.fit = some f)
    (hset : BPMCalc.set_frequency env freq st = some st') :
    BPMCalc.initial_guess env st' = f.params.set 1 (2 * env.pi * freq) ∧
    (1 < f.params.length →
      (BPMCalc.initial_guess env st').get? 1 = some (2 * env.pi * freq)) := by
  simp only [BPMCalc.set_frequency, hfit] at hset
  by_cases hlen : 1 < f.params.length
  · rw [if_pos hlen] at hset
    obtain rfl := Option.some_injective _ hset
    exact ⟨rfl, fun _ => List.get?_set_eq_of_lt _ hlen⟩
  · rw [if_neg hlen] at hset
    exact absurd hset (by simp)

/-- Witness for C9: after `set_frequency 2` on `stWithFit`, the next call's
initial guess is `[50, 12, 1, 0]` with slot 1 overridden to `2*3*2 = 12`. -/
theorem set_frequency_initial_guess_witness :
    BPMCalc.initial_guess envOk
        ((BPMCalc.set_frequency envOk 2 stWithFit).getD (BPMCalc.init idSmoother)) =
      fitA.params.set 1 (2 * envOk.pi * 2) ∧
    (1 < fitA.params.length →
      (BPMCalc.initial_guess envOk
        ((BPMCalc.set_frequency envOk 2 stWithFit).getD
          (BPMCalc.init idSmoother))).get? 1 = some (2 * envOk.pi * 2)) :=
  set_frequency_initial_guess envOk 2 stWithFit fitA
    ((BPMCalc.set_frequency envOk 2 stWithFit).getD (BPMCalc.init idSmoother))
    rfl rfl

/-! ## Shared structural lemmas about `calculate_bpm` -/

/-- `bpm_return` never mutates the state it is given. -/
theorem bpm_return_state (env : Env) (f : Fit) (st : BPMCalc) :
    (bpm_return env f st).2 = st := by
  unfold bpm_return
  split <;> rfl

/-- The capping step does not touch the stored best fit. -/
theorem capped_fit (st : BPMCalc) : (BPMCalc.capped st).fit = st.fit := by
  unfold BPMCalc.capped
  split <;> rfl

/-- `pySliceLast` with a positive count is a suffix-taking `drop`. -/
theorem pySliceLast_of_ne_zero (k : ℕ) (l : List α) (hk : k ≠ 0) :
    pySliceLast k l = l.drop (l.length - k) :=
  if_neg hk

/-- Past the minimum-points gate, the final state's buffers are exactly the
capped buffers: no later step of `calculate_bpm` touches `time` or `data`. -/
theorem calculate_bpm_buffers (env : Env) (rand : List ℕ) (st : BPMCalc)
    (hmin : ¬ st.time.length < st.minimum_points) :
    (BPMCalc.calculate_bpm env rand st).2.time = (BPMCalc.capped st).time ∧
    (BPMCalc.calculate_bpm env rand st).2.data = (BPMCalc.capped st).data := by
  unfold BPMCalc.calculate_bpm
  rw [if_neg hmin]
  split
  · exact ⟨rfl, rfl⟩
  · rw [bpm_return_state]; exact ⟨rfl, rfl⟩
  · exact ⟨rfl, rfl⟩
  · split <;> (rw [bpm_return_state]; exact ⟨rfl, rfl⟩)

/-- Claim C3: the stored best fit is replaced only when none exists yet or the
candidate's frequency-parameter error is strictly smaller, so a call never
leaves a best fit with larger error than it started with: whenever a best fit
exists before the call, the best fit after the call has error `≤` the one
before (hence a repeated call on an unchanged buffer cannot increase it). -/
theorem calculate_bpm_fit_monotone (env : Env) (rand : List ℕ) (st : BPMCalc)
    (res : Except PyErr (Option ℚ)) (st' : BPMCalc)
    (hcall : BPMCalc.calculate_bpm env rand st = (res, st')) :
    (st'.fit = st.fit ∨ st.fit = none ∨
      ∃ f nf, st.fit = some f ∧ st'.fit = some nf ∧ nf.error < f.error) ∧
    ∀ f f', st.fit = some f → st'.fit = some f' → f'.error ≤ f.error := by
  unfold BPMCalc.calculate_bpm at hcall
  by_cases hmin : st.time.length < st.minimum_points
  · rw [if_pos hmin] at hcall
    cases hcall
    refine ⟨Or.inl rfl, fun f f' hf hf' => ?_⟩
    rw [hf] at hf'
    cases hf'
    exact le_refl _
  · rw [if_neg hmin] at hcall
    rw [← capped_fit st]
    split at hcall
    · next hf _ =>
      cases hcall
      exact ⟨Or.inl hf.symm, fun f f' h1 h2 => by rw [hf] at h1; cases h1⟩
    · next nf hf _ =>
      have h2 := congrArg Prod.snd hcall
      rw [bpm_return_state] at h2
      subst h2
      refine ⟨Or.inr (Or.inl hf), fun f f' h1 h2 => by rw [hf] at h1; cases h1⟩
    · next _ _ _ =>
      cases hcall
      exact ⟨Or.inl rfl, fun f f' h1 h2 => by rw [h1] at h2; cases h2; exact le_refl _⟩
    · next f0 nf hf _ =>
      split at hcall
      · next hlt =>
        have h2 := congrArg Prod.snd hcall
        rw [bpm_return_state] at h2
        subst h2
        refine ⟨Or.inr (Or.inr ⟨f0, nf, hf, rfl, hlt⟩), fun f f' h1 h2 => ?_⟩
        rw [hf] at h1
        cases h1
        cases h2
        exact le_of_lt hlt
      · next hge =>
        have h2 := congrArg Prod.snd hcall
        rw [bpm_return_state] at h2
        subst h2
        refine ⟨Or.inl rfl, fun f f' h1 h2 => ?_⟩
        rw [h1] at h2
        cases h2
        exact le_refl _

/-- Witness for C3: a full estimation call on `stWithFit` (error 100) with an
always-converging optimizer replaces the fit by one of error 1 (≤ 100). -/
theorem calculate_bpm_fit_monotone_witness :
    ((BPMCalc.calculate_bpm envOk [0] stWithFit).2.fit = stWithFit.fit ∨
      stWithFit.fit = none ∨
      ∃ f nf, stWithFit.fit = some f ∧
        (BPMCalc.calculate_bpm envOk [0] stWithFit).2.fit = some nf ∧
        nf.error < f.error) ∧
    ∀ f f', stWithFit.fit = some f →
      (BPMCalc.calculate_bpm envOk [0] stWithFit).2.fit = some f' →
      f'.error ≤ f.error :=
  calculate_bpm_fit_monotone envOk [0] stWithFit
    (BPMCalc.calculate_bpm envOk [0] stWithFit).1
    (BPMCalc.calculate_bpm envOk [0] stWithFit).2 rfl

/-- Claim C4: a buffer longer than `maximum_points` is cut back (oldest
entries first) to exactly the newest `maximum_points` entries of both
sequences, and after any call the buffer length is at most `maximum_points`.
Stated for configurations with `minimum_points ≤ maximum_points` and
`0 < maximum_points` (the constructor fixes 10 and 5000). -/
theorem calculate_bpm_buffer_cap (env : Env) (rand : List ℕ) (st : BPMCalc)
    (res : Except PyErr (Option ℚ)) (st' : BPMCalc)
    (hmm : st.minimum_points ≤ st.maximum_points)
    (hmax0 : 0 < st.maximum_points)
    (hlen : st.time.length = st.data.length)
    (hcall : BPMCalc.calculate_bpm env rand st = (res, st')) :
    (st.maximum_points < st.time.length →
      st'.time = st.time.drop (st.time.length - st.maximum_points) ∧
      st'.data = st.data.drop (st.data.length - st.maximum_points) ∧
      st'.time.length = st.maximum_points ∧
      st'.data.length = st.maximum_points) ∧
    st'.time.length ≤ st.maximum_points := by
  by_cases hmin : st.time.length < st.minimum_points
  · unfold BPMCalc.calculate_bpm at hcall
    rw [if_pos hmin] at hcall
    cases hcall
    exact ⟨fun hgt => absurd hgt (by omega), by omega⟩
  · have hbuf := calculate_bpm_buffers env rand st hmin
    rw [hcall] at hbuf
    by_cases hgt : st.time.length > st.maximum_points
    · have ht : (BPMCalc.capped st).time =
          st.time.drop (st.time.length - st.maximum_points) := by
        unfold BPMCalc.capped
        rw [if_pos hgt]
        exact pySliceLast_of_ne_zero _ _ (by omega)
      have hd : (BPMCalc.capped st).data =
          st.data.drop (st.data.length - st.maximum_points) := by
        unfold BPMCalc.capped
        rw [if_pos hgt]
        exact pySliceLast_of_ne_zero _ _ (by omega)
      have hlt : st'.time = st.time.drop (st.time.length - st.maximum_points) := by
        rw [hbuf.1, ht]
      have hld : st'.data = st.data.drop (st.data.length - st.maximum_points) := by
        rw [hbuf.2, hd]
      have hlt' : st'.time.length = st.maximum_points := by
        rw [hlt, List.length_drop]; omega
      have hld' : st'.data.length = st.maximum_points := by
        rw [hld, List.length_drop]; omega
      exact ⟨fun _ => ⟨hlt, hld, hlt', hld'⟩, by omega⟩
    · have ht : (BPMCalc.capped st).time = st.time := by
        unfold BPMCalc.capped
        rw [if_neg hgt]
      refine ⟨fun hc => absurd hc (by omega), ?_⟩
      rw [hbuf.1, ht]
      omega

/-- Witness for C4: a 6-sample buffer on a configuration with
`maximum_points = 5` is cut to the newest 5 samples. -/
theorem calculate_bpm_buffer_cap_witness :
    ((stSmallCap.maximum_points < stSmallCap.time.length →
      (BPMCalc.calculate_bpm envOk [0] stSmallCap).2.time =
        stSmallCap.time.drop (stSmallCap.time.length - stSmallCap.maximum_points) ∧
      (BPMCalc.calculate_bpm envOk [0] stSmallCap).2.data =
        stSmallCap.data.drop (stSmallCap.data.length - stSmallCap.maximum_points) ∧
      (BPMCalc.calculate_bpm envOk [0] stSmallCap).2.time.length =
        stSmallCap.maximum_points ∧
      (BPMCalc.calculate_bpm envOk [0] stSmallCap).2.data.length =
        stSmallCap.maximum_points) ∧
    (BPMCalc.calculate_bpm envOk [0] stSmallCap).2.time.length ≤
      stSmallCap.maximum_points) :=
  calculate_bpm_buffer_cap envOk [0] stSmallCap
    (BPMCalc.calculate_bpm envOk [0] stSmallCap).1
    (BPMCalc.calculate_bpm envOk [0] stSmallCap).2
    (by decide) (by decide) (by decide) rfl

/-- Claim C1 (code bug in the source): when every sampled chunk's fit attempt
fails to converge (`optimum_fit` yields no fit), `calculate_bpm` does not fall
back — it raises: `TypeError` (`self.fit[0]` with `self.fit = None`) when no
best fit exists yet, and `AttributeError` (`new_fit.error` with
`new_fit = None`) when one does. -/
theorem calculate_bpm_total_fit_failure_raises :
    (BPMCalc.calculate_bpm envFail [0] stNoFit).1 = Except.error PyErr.typeError ∧
    (BPMCalc.calculate_bpm envFail [0] stWithFit).1 =
      Except.error PyErr.attributeError := by
  constructor <;> rfl

/-- Claim C6: when both candidate fits converge, `find_fit` picks the bop-axis
candidate (index 0) exactly when its frequency-parameter variance
(`pcov[0][1][1]`) is strictly smaller than the raw-vertical candidate's
(`pcov[1][1][1]`) — a tie goes to the raw-vertical candidate — and the
returned record carries the winner's parameters, its frequency-parameter
variance, the chunk's time samples, and the winning velocity series.  The
covariance matrices are given in explicit form exposing their `[1][1]`
entries `v0` and `v1`. -/
theorem find_fit_model_selection (env : Env) (sm : Smoother)
    (sample : List ℚ × List Point) (p0 popt0 popt1 q0 q1 t0 t1 : List ℚ)
    (m0 m1 : List (List ℚ)) (c0 v0 c1 v1 : ℚ)
    (h0 : env.curve_fit (pyTrim sample.1)
        (pyTrim (sm.smooth1 (velocity_data env sample).1)) p0 =
        some (popt0, q0 :: (c0 :: v0 :: t0) :: m0))
    (h1 : env.curve_fit (pyTrim sample.1)
        (pyTrim (sm.smooth1 (velocity_data env sample).2)) p0 =
        some (popt1, q1 :: (c1 :: v1 :: t1) :: m1)) :
    BPMCalc.find_fit env sm sample p0 =
      some (if v0 < v1 then
              { params := popt0, error := v0, time := sample.1,
                data := (velocity_data env sample).1 }
            else
              { params := popt1, error := v1, time := sample.1,
                data := (velocity_data env sample).2 }) := by
  by_cases hv : v0 < v1
  · have hpos : (0 : ℚ) < v1 - v0 := sub_pos.mpr hv
    simp [BPMCalc.find_fit, h0, h1, matSub, diag, diagFrom, hpos, hv]
  · have hpos : ¬ (0 : ℚ) < v1 - v0 := fun h => hv (sub_pos.mp h)
    simp [BPMCalc.find_fit, h0, h1, matSub, diag, diagFrom, hpos, hv]

/-- Witness for C6: with both candidates reporting frequency variance 7 (a
tie), the raw-vertical candidate is returned. -/
theorem find_fit_model_selection_witness :
    BPMCalc.find_fit envSel idSmoother ([0, 1, 2], [(0, 0), (1, 1), (2, 2)])
        [1, 2, 3, 4] =
      some (if (7 : ℚ) < 7 then
              { params := [1, 2, 3, 4], error := 7, time := [0, 1, 2],
                data := (velocity_data envSel
                  ([0, 1, 2], [(0, 0), (1, 1), (2, 2)])).1 }
            else
              { params := [1, 2, 3, 4], error := 7, time := [0, 1, 2],
                data := (velocity_data envSel
                  ([0, 1, 2], [(0, 0), (1, 1), (2, 2)])).2 }) :=
  find_fit_model_selection envSel idSmoother ([0, 1, 2], [(0, 0), (1, 1), (2, 2)])
    [1, 2, 3, 4] [1, 2, 3, 4] [1, 2, 3, 4] [5, 5] [5, 5] [] [] [] [] 5 7 5 7
    rfl rfl

/-- Counterexample to C8 as stated: at slope 0 (reported, e.g., for a
horizontal point cloud) `np.sign m = 0`, so the computed direction is
`(0, 0)`, which does not have unit length — even though the square-root
collaborator is exact at the only argument used (`sqrt (1 + 0^2) = 1`). -/
theorem lsrl_vector_zero_slope_not_unit :
    envFail.lstsq_slope [] = 0 ∧
    envFail.sqrt (1 + (0 : ℚ) ^ 2) ^ 2 = 1 + (0 : ℚ) ^ 2 ∧
    0 < envFail.sqrt (1 + (0 : ℚ) ^ 2) ∧
    (BPMCalc.lsrl_vector envFail []).1 ^ 2 +
      (BPMCalc.lsrl_vector envFail []).2 ^ 2 ≠ 1 := by
  refine ⟨rfl, by norm_num [envFail], by norm_num [envFail], ?_⟩
  norm_num [BPMCalc.lsrl_vector, envFail, qsign]

/-- Claim C8 (amended: nonzero slope): for every nonzero slope `m` reported by
the least-squares solver, provided the square root at `1 + m^2` is exact, the
bop-axis direction `(sign m / sqrt (1+m^2), |m| / sqrt (1+m^2))` computed by
`lsrl_vector` has unit Euclidean length (squared norm 1) and a non-negative
vertical component. -/
theorem lsrl_vector_unit_of_slope_ne_zero (env : Env) (data : List Point)
    (m : ℚ) (hm : env.lstsq_slope data = m) (hm0 : m ≠ 0)
    (hsq : env.sqrt (1 + m ^ 2) ^ 2 = 1 + m ^ 2)
    (hpos : 0 < env.sqrt (1 + m ^ 2)) :
    (BPMCalc.lsrl_vector env data).1 ^ 2 +
      (BPMCalc.lsrl_vector env data).2 ^ 2 = 1 ∧
    0 ≤ (BPMCalc.lsrl_vector env data).2 := by
  have hqs : qsign m ^ 2 = 1 := by
    unfold qsign
    rcases lt_trichotomy m 0 with h | h | h
    · rw [if_pos h]; norm_num
    · exact absurd h hm0
    · rw [if_neg (not_lt.mpr (le_of_lt h)), if_neg (ne_of_gt h)]; norm_num
  have hne : (1 + m ^ 2 : ℚ) ≠ 0 := by positivity
  simp only [BPMCalc.lsrl_vector, hm]
  constructor
  · rw [div_pow, div_pow, hsq, sq_abs, hqs, div_add_div_same, div_self hne]
  · exact div_nonneg (abs_nonneg m) (le_of_lt hpos)

/-- Witness for the amended C8: at slope `3/4`, with the exact root
`sqrt (25/16) = 5/4`, the direction is `(3/5, 3/5)`-style unit vector
`(4/5, 3/5)` with non-negative vertical part. -/
theorem lsrl_vector_unit_witness :
    (BPMCalc.lsrl_vector env34 []).1 ^ 2 +
      (BPMCalc.lsrl_vector env34 []).2 ^ 2 = 1 ∧
    0 ≤ (BPMCalc.lsrl_vector env34 []).2 :=
  lsrl_vector_unit_of_slope_ne_zero env34 [] (3 / 4) rfl (by norm_num)
    (by norm_num [env34]) (by norm_num [env34])
